import Mathlib

/-!
# Verification of the YSO (YumStudio Object) parser/serializer

Shallow embedding of `src/ysocxx/ysocxx.hpp` (namespace `YumStudio`):
the document model (`YSOSection`, `YumStudioObject`), the serializer
(`pack`, `to_string`, `save`) and the parser (`parse_section`, `parse`).

Strings are modelled as `List Char`; an input stream (`std::istream`) is
modelled as the remaining characters plus the eof bit, with `getline`
following the semantics of `std::getline` (a line read that hits end of
input without finding `'\n'` sets the eof bit; a read attempted on an
exhausted or eof stream fails).  The `std::unordered_map` containers are
modelled as association lists in insertion order; iteration order of the
C++ containers is unspecified, which matters only for serialization, where
the model fixes one order.  C++ exceptions are modelled with `Except`.
The recursive parsing loops are given explicit fuel; exhausted fuel is the
distinguished error `outOfFuel`, which the top-level wrappers make
unreachable by supplying `length + 1` fuel (one unit per consumed line,
each of which consumes at least one character).
-/

namespace YumStudio

/-- Errors thrown by the library: `std::out_of_range` from the const
`operator[]` accessors (`keyNotFound`), the two `std::runtime_error`s of the
parser (`expectedCloseBracket` for `"Expected ']'"`, `expectedMarker` for
`"expected '\"\"\"'"`), and the fuel artifact of the embedding. -/
inductive YSOError where
  | keyNotFound : String → YSOError
  | expectedCloseBracket : YSOError
  | expectedMarker : YSOError
  | outOfFuel : YSOError
deriving DecidableEq, Repr

/-- The multi-line marker `YSO_MULLN_STR`, the literal `"""`. -/
def YSO_MULLN_STR : List Char := ['\"', '\"', '\"']

/-- `std::isspace` on the characters relevant to this format. -/
def isSpaceChar (c : Char) : Bool :=
  c = ' ' || c = '\t' || c = '\n' || c = '\x0b' || c = '\x0c' || c = '\r'

/-- `YumStudioObject::trim`: drop leading and trailing whitespace
(lines 73-77 of the source). -/
def trim (s : List Char) : List Char :=
  ((s.dropWhile isSpaceChar).reverse.dropWhile isSpaceChar).reverse

/-- `std::string::find(c)`: index of the first occurrence of a character,
`none` standing for `npos`. -/
def findCharIdx? (t : Char) : List Char → Option Nat
  | [] => none
  | c :: tl => if c = t then some 0 else (findCharIdx? t tl).map (· + 1)

/-- `std::string::find(c, pos)`: first occurrence at index `≥ start`. -/
def findCharFrom? (t : Char) (l : List Char) (start : Nat) : Option Nat :=
  (findCharIdx? t (l.drop start)).map (· + start)

/-- Whether the multi-line marker starts the list. -/
def markerAtHead : List Char → Bool
  | '\"' :: '\"' :: '\"' :: _ => true
  | _ => false

/-- `std::string::find(YSO_MULLN_STR)`: index of the first occurrence of the
triple-quote marker, `none` standing for `npos`. -/
def markerIdx? : List Char → Option Nat
  | [] => none
  | c :: tl =>
    if markerAtHead (c :: tl) then some 0 else (markerIdx? tl).map (· + 1)

/-- `line[0]` on a `std::string`: the first character, or the null character
when the string is empty (`operator[]` at index `size()` returns `charT()`). -/
def char0 (l : List Char) : Char := l.headD (Char.ofNat 0)

/-- `YSOSection`: a section, wrapping an `unordered_map<string, string>`
modelled as an association list in insertion order. -/
structure YSOSection where
  map : List (String × String)
deriving DecidableEq, Repr

/-- `YSOSection::contains` (line 40): `map.find(key) != map.end()`. -/
def YSOSection.contains (s : YSOSection) (key : String) : Bool :=
  (s.map.find? (fun p => p.1 = key)).isSome

/-- The const `YSOSection::operator[]` (lines 50-56): returns the stored
string, or throws `std::out_of_range` when the key is absent. -/
def YSOSection.getConst (s : YSOSection) (key : String) : Except YSOError String :=
  match s.map.find? (fun p => p.1 = key) with
  | some p => .ok p.2
  | none => .error (.keyNotFound key)

/-- The mutable `YSOSection::operator[]` followed by assignment
(`section[name] = value`): overwrite the entry if the key exists, otherwise
append a new one. -/
def YSOSection.set (s : YSOSection) (key val : String) : YSOSection :=
  if s.map.any (fun p => p.1 = key) then
    ⟨s.map.map (fun p => if p.1 = key then (key, val) else p)⟩
  else
    ⟨s.map ++ [(key, val)]⟩

/-- `YSOSection::pack` (lines 26-32): wrap a value containing a newline with
the multi-line marker on both sides.  Note: the source defines this helper
but never calls it. -/
def YSOSection.pack (str : List Char) : List Char :=
  if (findCharIdx? '\n' str).isSome then YSO_MULLN_STR ++ str ++ YSO_MULLN_STR
  else str

/-- `YSOSection::to_string` (lines 63-66): the string `s` built by the loop,
one `key:value\n` line per entry.  Note: the source function builds `s` but
is missing its `return s;` statement (undefined behaviour in C++); the model
takes the built string, which is the evident intent.  The loop appends the
raw value and does not call `pack`. -/
def YSOSection.to_string (s : YSOSection) : List Char :=
  s.map.foldl (fun acc p => acc ++ p.1.data ++ [':'] ++ p.2.data ++ ['\n']) []

/-- `YumStudioObject`: the document, wrapping an
`unordered_map<string, YSOSection>` modelled as an association list. -/
structure YumStudioObject where
  sections : List (String × YSOSection)
deriving DecidableEq, Repr

/-- `YumStudioObject::contains` (line 85). -/
def YumStudioObject.contains (o : YumStudioObject) (section_ : String) : Bool :=
  (o.sections.find? (fun p => p.1 = section_)).isSome

/-- The const `YumStudioObject::operator[]` (lines 93-99): returns the
section, or throws `std::out_of_range` when absent. -/
def YumStudioObject.getConst (o : YumStudioObject) (section_ : String) :
    Except YSOError YSOSection :=
  match o.sections.find? (fun p => p.1 = section_) with
  | some p => .ok p.2
  | none => .error (.keyNotFound section_)

/-- The mutable `YumStudioObject::operator[]` followed by assignment
(`object[sectionname] = ...`). -/
def YumStudioObject.set (o : YumStudioObject) (name : String) (sec : YSOSection) :
    YumStudioObject :=
  if o.sections.any (fun p => p.1 = name) then
    ⟨o.sections.map (fun p => if p.1 = name then (name, sec) else p)⟩
  else
    ⟨o.sections ++ [(name, sec)]⟩

/-- `YumStudioObject::save` (lines 102-113), modelled as the text written to
the file: the header line, then for each section `[name]\n`, the section's
`to_string`, and the `\n` of `std::endl`. -/
def YumStudioObject.save_text (o : YumStudioObject) (header : List Char) : List Char :=
  header ++ ['\n'] ++
    o.sections.foldl
      (fun acc sec => acc ++ ['['] ++ sec.1.data ++ [']', '\n'] ++ sec.2.to_string ++ ['\n'])
      []

/-- An input stream: the characters not yet consumed and the eof bit. -/
structure Stream where
  rem : List Char
  eofb : Bool
deriving DecidableEq, Repr

/-- `std::getline(src, line)`: fails on an eof/exhausted stream; otherwise
reads up to and consuming the first `'\n'`, or, when no `'\n'` remains,
reads everything and sets the eof bit. -/
def getline (st : Stream) : Option (List Char × Stream) :=
  if st.eofb = true ∨ st.rem = [] then none
  else
    match findCharIdx? '\n' st.rem with
    | some i => some (st.rem.take i, ⟨st.rem.drop (i + 1), false⟩)
    | none => some (st.rem, ⟨[], true⟩)

/-- The condition of line 122,
`line.size() >= 0 && line[0] != '#' || line[0] != ';' && line.find(':') != npos`,
with the C++ precedence `(size >= 0 && c0 != '#') || (c0 != ';' && hasColon)`. -/
def kvCond (line : List Char) : Bool :=
  (decide (0 ≤ line.length) && decide (char0 line ≠ '#')) ||
    (decide (char0 line ≠ ';') && (findCharIdx? ':' line).isSome)

/-- Modelled from the spec's words (design note on comment-line recognition):
the formula `(first_char != '#' && first_char != ';') || has_colon` that the
spec asserts is equivalent to the condition of line 122. -/
def specKvCond (line : List Char) : Bool :=
  (decide (char0 line ≠ '#') && decide (char0 line ≠ ';')) ||
    (findCharIdx? ':' line).isSome

/-- `line.substr(0, nameend)` where `nameend = line.find(':')` may be `npos`
(`none`): the whole line when the colon is absent. -/
def substrToColon (line : List Char) : Option Nat → List Char
  | none => line
  | some i => line.take i

/-- `line.substr(nameend + 1)`: when `nameend` is `npos`, `npos + 1` wraps
around to `0`, so the whole line is returned. -/
def substrPastColon (line : List Char) : Option Nat → List Char
  | none => line
  | some i => line.drop (i + 1)

/-- The inner `while` loop of `YumStudioObject::parse_section`
(lines 127-135): the multi-line collection loop.  The loop condition reads a
line and then tests `!found`, so after the terminating marker is found one
further line is read and discarded.  Inside the body, the eof check precedes
the marker check.  The accumulated `value` is returned (the caller discards
it, as the source does). -/
def collectMulti : Nat → Stream → List Char → Bool → Except YSOError (List Char × Stream)
  | 0, _, _, _ => .error .outOfFuel
  | n + 1, st, value, found =>
    match getline st with
    | none => .ok (value, st)
    | some (line, st') =>
      if found then .ok (value, st')
      else if st'.eofb then .error .expectedMarker
      else
        match markerIdx? line with
        | some e => collectMulti n st' (value ++ line.take e) true
        | none => collectMulti n st' (value ++ line) false

/-- `YumStudioObject::parse_section` (lines 115-144).  Reads lines until
`getline` fails; for each trimmed line satisfying the condition of line 122,
splits it at the first `':'`; if the raw value contains the marker, runs the
multi-line collection loop (whose accumulated value is never stored — as in
the source); otherwise stores `trim(value)` under the (untrimmed) name. -/
def parse_section : Nat → Stream → YSOSection → Except YSOError (YSOSection × Stream)
  | 0, _, _ => .error .outOfFuel
  | n + 1, st, sec =>
    match getline st with
    | none => .ok (sec, st)
    | some (rawline, st') =>
      let line := trim rawline
      if kvCond line then
        let nameend := findCharIdx? ':' line
        let name := substrToColon line nameend
        let value := substrPastColon line nameend
        match markerIdx? value with
        | some _ =>
          match collectMulti n st' value false with
          | .error e => .error e
          | .ok (_, st'') => parse_section n st'' sec
        | none => parse_section n st' (sec.set (String.mk name) (String.mk (trim value)))
      else parse_section n st' sec

/-- `YumStudioObject::parse` (lines 146-163), the top-level loop.  A trimmed
line that is non-empty, does not start with `'#'` or `';'` and contains a
`'['` is a section header; a missing `']'` throws; otherwise the body
sub-parser is run on the rest of the stream and its section is stored under
the trimmed name between the brackets. -/
def parse_loop : Nat → Stream → YumStudioObject → Except YSOError YumStudioObject
  | 0, _, _ => .error .outOfFuel
  | n + 1, st, obj =>
    match getline st with
    | none => .ok obj
    | some (rawline, st') =>
      let line := trim rawline
      if line.length > 0 && decide (char0 line ≠ '#') && decide (char0 line ≠ ';') &&
          (findCharIdx? '[' line).isSome then
        let beg := (findCharIdx? '[' line).getD 0
        match findCharFrom? ']' line beg with
        | none => .error .expectedCloseBracket
        | some e =>
          let sectionname := String.mk (trim ((line.drop (beg + 1)).take (e - (beg + 1))))
          match parse_section n st' ⟨[]⟩ with
          | .error err => .error err
          | .ok (sec, st'') => parse_loop n st'' (obj.set sectionname sec)
      else parse_loop n st' obj

/-- `YumStudioObject::parse` on a whole input string, with fuel sufficient
for a loop that consumes at least one character per line read. -/
def YumStudioObject.parse (s : String) : Except YSOError YumStudioObject :=
  parse_loop (s.data.length + 1) ⟨s.data, false⟩ ⟨[]⟩

/-- Claim C2: the claim states that the section-body sub-parser stops at the
next section header, so that an input with two header lines parses to two
sections.  The code's `parse_section` loop has no header check and consumes
every remaining line: the second header line `[B]` and its body line `y:2`
are swallowed into section `A` as ordinary key/value lines, and the result
has a single section. -/
theorem parse_two_headers_one_section :
    YumStudioObject.parse "[A]\nx:1\n[B]\ny:2\n" =
      .ok ⟨[("A", ⟨[("x", "1"), ("[B]", "[B]"), ("y", "2")]⟩)]⟩ := rfl

/-- Claim C3: the claim states that the six-line scenario parses to
`name -> demo` and `desc -> hello\nworld`.  The code never stores the value
accumulated by the multi-line collection loop (no assignment to the section
follows it), so `desc` is absent: with a trailing newline the parse succeeds
with only `name`, and without one the misplaced eof check throws. -/
theorem parse_scenario_drops_multiline :
    YumStudioObject.parse "[general]\nname:demo\ndesc:\"\"\"\nhello\nworld\n\"\"\"\n" =
      .ok ⟨[("general", ⟨[("name", "demo")]⟩)]⟩ ∧
    YumStudioObject.parse "[general]\nname:demo\ndesc:\"\"\"\nhello\nworld\n\"\"\"" =
      .error .expectedMarker := ⟨rfl, rfl⟩

/-- Claim C4: the claim states that serialization wraps values containing a
newline with the multi-line marker.  `to_string` appends the raw value and
never calls `pack` (which is exactly the wrapping helper, left unused), so
the emitted text for value `a\nb` contains no marker — while `pack` itself
would produce the wrapped form. -/
theorem to_string_omits_marker :
    (YSOSection.mk [("k", "a\nb")]).to_string = "k:a\nb\n".data ∧
    markerIdx? (YSOSection.mk [("k", "a\nb")]).to_string = none ∧
    YSOSection.pack "a\nb".data = "\"\"\"a\nb\"\"\"".data := by
  refine ⟨?_, ?_, ?_⟩ <;> decide

/-- Claim C1: the claim states `parse(render(obj)) == obj` for marker-free
values.  Already for the one-section object `{A: {k -> v}}` the round trip
fails: the blank separator line emitted after the section body is parsed as
a key/value entry with empty key and value (the condition of line 122
accepts the empty line, `find(':')` gives `npos`, and `substr(npos+1)` wraps
to the whole line), so the re-parsed object has an extra entry. -/
theorem roundtrip_fails_on_singleton :
    YumStudioObject.parse
        (String.mk ((YumStudioObject.mk [("A", ⟨[("k", "v")]⟩)]).save_text [])) =
      .ok ⟨[("A", ⟨[("k", "v"), ("", "")]⟩)]⟩ ∧
    YumStudioObject.mk [("A", ⟨[("k", "v"), ("", "")]⟩)] ≠
      YumStudioObject.mk [("A", ⟨[("k", "v")]⟩)] := ⟨rfl, by decide⟩

/-- Claim C5: the claim states that every unterminated multi-line value
fails with the malformed-input error.  The throw sits inside the collection
loop and fires only when a successful `getline` sets the eof bit, i.e. when
the final line lacks a trailing newline: with a trailing newline the loop
just ends and the parse succeeds (with the value silently dropped), while
the claim's particular three-line input (no trailing newline) does fail. -/
theorem unterminated_multiline_eval :
    YumStudioObject.parse "[S]\nk:\"\"\"\nabc\n" = .ok ⟨[("S", ⟨[]⟩)]⟩ ∧
    YumStudioObject.parse "[S]\nk:\"\"\"\nabc" = .error .expectedMarker := ⟨rfl, rfl⟩

/-- Claim C7: the claim states that any input containing the line
`[unclosed` fails with malformed input.  At top level it does (second
conjunct), but a `[unclosed` line that follows a section header is consumed
by `parse_section` — which never re-examines lines for headers — and is
stored as the degenerate entry `[unclosed -> [unclosed`, so the parse
succeeds (first conjunct). -/
theorem unclosed_header_inside_body_ok :
    YumStudioObject.parse "[A]\n[unclosed\n" =
      .ok ⟨[("A", ⟨[("[unclosed", "[unclosed")]⟩)]⟩ ∧
    YumStudioObject.parse "[unclosed" = .error .expectedCloseBracket := ⟨rfl, rfl⟩

/-- Claim C8 counterexample: the claim's formula
`(first_char != '#' && first_char != ';') || has_colon` disagrees with the
code's condition at the line `;x` (first char `;`, no colon): the code
treats it as a key/value line, the formula would skip it. -/
theorem kvCond_ne_spec_at_semicolon :
    kvCond ";x".data = true ∧ specKvCond ";x".data = false := by
  constructor <;> decide

/-- Claim C8 (amended): the condition of line 122 is equivalent to
`first_char != '#' || has_colon`: a line starting with `;` is never skipped,
and a line starting with `#` is skipped exactly when it has no colon. -/
theorem kvCond_eq_hash_or_colon (line : List Char) :
    kvCond line =
      (decide (char0 line ≠ '#') || (findCharIdx? ':' line).isSome) := by
  by_cases h : char0 line = '#' <;> simp [kvCond, h]

/-- Claim C6: lookups through the const accessors on a missing section or
key throw the key-not-found error, and the corresponding existence checks
(total boolean functions) return `false`. -/
theorem missing_lookup_keyNotFound (o : YumStudioObject) (s : YSOSection)
    (n k : String)
    (ho : o.sections.find? (fun p => p.1 = n) = none)
    (hk : s.map.find? (fun p => p.1 = k) = none) :
    o.getConst n = .error (.keyNotFound n) ∧ o.contains n = false ∧
    s.getConst k = .error (.keyNotFound k) ∧ s.contains k = false := by
  refine ⟨?_, ?_, ?_, ?_⟩ <;>
    simp [YumStudioObject.getConst, YumStudioObject.contains,
      YSOSection.getConst, YSOSection.contains, ho, hk]

/-- Witness for the missing-lookup contract at a concrete object, section
and key. -/
theorem missing_lookup_keyNotFound_witness :
    (YumStudioObject.mk [("A", ⟨[]⟩)]).getConst "missing" =
        .error (.keyNotFound "missing") ∧
    (YumStudioObject.mk [("A", ⟨[]⟩)]).contains "missing" = false ∧
    (YSOSection.mk [("a", "1")]).getConst "missing" =
        .error (.keyNotFound "missing") ∧
    (YSOSection.mk [("a", "1")]).contains "missing" = false :=
  missing_lookup_keyNotFound _ _ _ _ (by decide) (by decide)

/-- When `parse_section` succeeds, the stream it returns is exhausted: the
loop only ends when `getline` fails. -/
theorem parse_section_exhausts (n : Nat) (st : Stream) (sec sec' : YSOSection)
    (st' : Stream) (h : parse_section n st sec = .ok (sec', st')) :
    getline st' = none := by
  induction n generalizing st sec with
  | zero => simp [parse_section] at h
  | succ n ih =>
    rw [parse_section] at h
    cases hg : getline st with
    | none =>
      rw [hg] at h
      simp only [Except.ok.injEq, Prod.mk.injEq] at h
      rw [← h.2]; exact hg
    | some p =>
      rw [hg] at h
      simp only at h
      split at h
      · split at h
        · split at h
          · exact absurd h (by simp)
          · exact ih _ _ h
        · exact ih _ _ h
      · exact ih _ _ h

/-- When the stream is exhausted, the top-level loop returns its
accumulator unchanged. -/
theorem parse_loop_exhausted (n : Nat) (st : Stream) (obj : YumStudioObject)
    (hg : getline st = none) : parse_loop (n + 1) st obj = .ok obj := by
  rw [parse_loop, hg]

/-- Storing a section adds at most one entry to the object. -/
theorem set_sections_length (obj : YumStudioObject) (name : String)
    (sec : YSOSection) :
    (obj.set name sec).sections.length ≤ obj.sections.length + 1 := by
  unfold YumStudioObject.set
  split <;> simp

/-- The top-level loop can grow the object by at most one section: once a
header is recognized, `parse_section` exhausts the stream, so afterwards the
loop terminates without recognizing another header. -/
theorem parse_loop_sections_le (n : Nat) (st : Stream) (obj r : YumStudioObject)
    (h : parse_loop n st obj = .ok r) :
    r.sections.length ≤ obj.sections.length + 1 := by
  induction n generalizing st obj with
  | zero => simp [parse_loop] at h
  | succ n ih =>
    rw [parse_loop] at h
    cases hg : getline st with
    | none =>
      rw [hg] at h
      simp only [Except.ok.injEq] at h
      simp [← h]
    | some p =>
      rw [hg] at h
      simp only at h
      split at h
      · split at h
        · exact absurd h (by simp)
        · split at h
          · exact absurd h (by simp)
          · rename_i sec hsec
            have hst'' := parse_section_exhausts _ _ _ _ _ hsec
            cases n with
            | zero => exact absurd h (by simp [parse_loop])
            | succ m =>
              rw [parse_loop_exhausted _ _ _ hst''] at h
              simp only [Except.ok.injEq] at h
              rw [← h]
              exact set_sections_length _ _ _
      · exact ih _ _ h

/-- Claim C9: for every input, a successful parse yields an object with at
most one section, because `parse_section` consumes the rest of the stream
after the first recognized header. -/
theorem parse_at_most_one_section (s : String) (obj : YumStudioObject)
    (h : YumStudioObject.parse s = .ok obj) : obj.sections.length ≤ 1 := by
  have := parse_loop_sections_le _ _ _ _ h
  simpa using this

/-- Witness: the input `[A]\n` parses successfully, and the at-most-one
bound applies to its result. -/
theorem parse_at_most_one_section_witness :
    (YumStudioObject.mk [("A", ⟨[]⟩)]).sections.length ≤ 1 :=
  parse_at_most_one_section "[A]\n" _ rfl

/-- Finding a character right after a list not containing it. -/
theorem findCharIdx?_append_self (c : Char) (l r : List Char)
    (h : findCharIdx? c l = none) :
    findCharIdx? c (l ++ c :: r) = some l.length := by
  induction l with
  | nil => simp [findCharIdx?]
  | cons a tl ih =>
    rw [findCharIdx?] at h
    rw [List.cons_append, findCharIdx?]
    split at h
    · exact absurd h (by simp)
    · rename_i hac
      rw [if_neg hac]
      have h' : findCharIdx? c tl = none := by
        cases hfi : findCharIdx? c tl with
        | none => rfl
        | some v => rw [hfi] at h; exact absurd h (by simp)
      rw [ih h']
      rfl

/-- Reading one newline-free line off the front of a stream. -/
theorem getline_cons (L rest : List Char)
    (hnl : findCharIdx? '\n' L = none) :
    getline ⟨L ++ '\n' :: rest, false⟩ = some (L, ⟨rest, false⟩) := by
  rw [getline]
  rw [if_neg (by simp)]
  simp only [findCharIdx?_append_self '\n' L rest hnl]
  congr 1
  refine Prod.ext ?_ ?_
  · exact List.take_left L ('\n' :: rest)
  · show (⟨(L ++ '\n' :: rest).drop (L.length + 1), false⟩ : Stream) = ⟨rest, false⟩
    congr 1
    have : L ++ '\n' :: rest = (L ++ ['\n']) ++ rest := by simp
    rw [this]
    have hlen : (L ++ ['\n']).length = L.length + 1 := by simp
    rw [← hlen]
    exact List.drop_left (L ++ ['\n']) rest

/-- Claim C10 counterexample: the line consisting of the bare triple-quote
marker has no colon and does not start with `#`, yet it is not stored as an
entry: since `substr(npos + 1)` makes the value the whole line, the marker
check fires and the line instead opens multi-line collection, whose result
is discarded.  Here the body consisting of that single line parses to the
empty section. -/
theorem marker_line_not_stored :
    parse_section 3 ⟨"\"\"\"\n".data, false⟩ ⟨[]⟩ = .ok (⟨[]⟩, ⟨[], false⟩) ∧
    (YSOSection.mk []).contains (String.mk YSO_MULLN_STR) = false :=
  ⟨rfl, by decide⟩

/-- Claim C10 (amended): within a section body, a trimmed line whose first
character is not `#`, which contains no colon, and which does not contain
the triple-quote marker is stored as an entry whose key and value both
equal the entire line: `find(':')` yields `npos`, so the name is
`substr(0, npos)` (the whole line) and the raw value `substr(npos + 1)`
wraps around to `substr(0)` (the whole line again). -/
theorem colonless_line_stored (L rest : List Char) (sec : YSOSection) (n : Nat)
    (htrim : trim L = L) (hnl : findCharIdx? '\n' L = none)
    (hcolon : findCharIdx? ':' L = none)
    (hhash : char0 L ≠ '#') (hmk : markerIdx? L = none) :
    parse_section (n + 1) ⟨L ++ '\n' :: rest, false⟩ sec =
      parse_section n ⟨rest, false⟩ (sec.set (String.mk L) (String.mk L)) := by
  rw [parse_section, getline_cons L rest hnl]
  simp only [htrim, hcolon, hmk]
  rw [if_pos ?_]
  · simp only [substrToColon, substrPastColon, htrim]
    split
    · rename_i v hv
      rw [hmk] at hv
      exact absurd hv (by simp)
    · rfl
  · simp [kvCond, hhash]

/-- Witness: the body line `[name]` (no colon, first char `[`) is stored
with itself as both key and value. -/
theorem colonless_line_stored_witness :
    parse_section 2 ⟨"[name]".data ++ '\n' :: [], false⟩ ⟨[]⟩ =
      parse_section 1 ⟨[], false⟩
        ((YSOSection.mk []).set (String.mk "[name]".data) (String.mk "[name]".data)) :=
  colonless_line_stored "[name]".data [] ⟨[]⟩ 1 (by decide) (by decide)
    (by decide) (by decide) (by decide)

end YumStudio
